import Mathlib

/-!
Verification of the order risk-scoring and notification pipeline of the
smartorderriskanalyzer app.  The definitions below are a shallow embedding of
the TypeScript sources:

* `analyzeOrderRisk` — src/app/utils/riskAnalysis.server.ts
* `sendRiskNotificationsFn` — src/app/utils/notifications.server.ts
* `processWebhook` — src/app/routes/webhooks.orders.created.tsx
* `wsStep` (connection registry transitions) — src/app/utils/websocket.server.ts

JavaScript-specific behaviour (string truthiness, `parseFloat`, short-circuit
`||` on strings) is modelled explicitly; external effects (the HMAC primitive,
JSON parsing, the server-local clock used by `Date.getHours`) are taken as
function parameters of the embedded pipeline.
-/

/-- Truthiness of a possibly-absent JavaScript string: truthy iff present and
non-empty. -/
def truthyStr (o : Option String) : Bool :=
  o.any (fun s => s != "")

/-- JavaScript `a || b` on possibly-absent strings: yields `a` when `a` is
truthy, otherwise `b`. -/
def jsOr (a b : Option String) : Option String :=
  if truthyStr a then a else b

/-- Whether the first character list is a leading segment of the second. -/
def leadsWith : List Char → List Char → Bool
  | [], _ => true
  | _ :: _, [] => false
  | a :: as, b :: bs => a == b && leadsWith as bs

/-- Whether `sub` occurs contiguously inside `l`; models JavaScript
`String.prototype.includes` on the character level. -/
def hasSub (sub : List Char) : List Char → Bool
  | [] => leadsWith sub []
  | l@(_ :: rest) => leadsWith sub l || hasSub sub rest

/-- JavaScript `s.includes(sub)`. -/
def strIncludes (s sub : String) : Bool :=
  hasSub sub.toList s.toList

/-- JavaScript `s.toLowerCase()` (ASCII range), computed structurally over the
character list. -/
def lowerStr (s : String) : String :=
  String.mk (s.toList.map Char.toLower)

/-- Split a character list on a separator character; models
`String.prototype.split` with a one-character separator. -/
def splitOnChar (sep : Char) : List Char → List (List Char)
  | [] => [[]]
  | c :: rest =>
      let r := splitOnChar sep rest
      if c == sep then [] :: r
      else
        match r with
        | [] => [[c]]
        | h :: t => (c :: h) :: t

/-- JavaScript `s.split(sep)` for a one-character separator. -/
def strSplit (s : String) (sep : Char) : List String :=
  (splitOnChar sep s.toList).map String.mk

/-- Numeric value of a list of decimal digit characters, most significant
first. -/
def digitsVal (ds : List Char) : Nat :=
  ds.foldl (fun a c => a * 10 + (c.toNat - 48)) 0


/-- Exponent digits of a decimal literal (after the `e`): optional sign then at
least one digit, as in ECMAScript `parseFloat`. -/
def expDigits (cs : List Char) : Option Int :=
  match cs with
  | '+' :: u =>
      if (u.takeWhile Char.isDigit).isEmpty then none
      else some (digitsVal (u.takeWhile Char.isDigit) : Int)
  | '-' :: u =>
      if (u.takeWhile Char.isDigit).isEmpty then none
      else some (-(digitsVal (u.takeWhile Char.isDigit) : Int))
  | u =>
      if (u.takeWhile Char.isDigit).isEmpty then none
      else some (digitsVal (u.takeWhile Char.isDigit) : Int)

/-- Exponent part of a decimal literal: `e` or `E` followed by exponent
digits; ignored (as `parseFloat` ignores a trailing partial exponent) when
malformed. -/
def expValue (cs : List Char) : Option Int :=
  match cs with
  | 'e' :: t => expDigits t
  | 'E' :: t => expDigits t
  | _ => none

/-- Unsigned decimal literal `digits [. digits]`: unscaled digit value, number
of fraction digits, and remaining input; `none` when no digit is consumed (the
NaN case of `parseFloat`). -/
def parseDecimal (cs : List Char) : Option (Nat × Nat × List Char) :=
  let intDs := cs.takeWhile Char.isDigit
  let rest1 := cs.dropWhile Char.isDigit
  let fracDs :=
    match rest1 with
    | '.' :: t => t.takeWhile Char.isDigit
    | _ => []
  let rest2 :=
    match rest1 with
    | '.' :: t => t.dropWhile Char.isDigit
    | _ => rest1
  if intDs.isEmpty && fracDs.isEmpty then none
  else some (digitsVal intDs * 10 ^ fracDs.length + digitsVal fracDs, fracDs.length, rest2)

/-- ECMAScript `parseFloat` on finite decimal literals over the rationals:
leading whitespace, optional sign, digits with optional fraction and optional
exponent, longest valid prefix; `none` models the NaN result.  The `Infinity`
literal is not modelled. -/
def parseFloat? (s : String) : Option Rat :=
  let cs := s.toList.dropWhile Char.isWhitespace
  let signed : Bool × List Char :=
    match cs with
    | '-' :: t => (true, t)
    | '+' :: t => (false, t)
    | t => (false, t)
  match parseDecimal signed.2 with
  | none => none
  | some (n, fracLen, rest) =>
      let e : Int := (match expValue rest with | some e => e | none => 0) - (fracLen : Int)
      let num : Int := if signed.1 then -(n : Int) else (n : Int)
      some (if 0 ≤ e then mkRat (num * ((10 ^ e.toNat : Nat) : Int)) 1
            else mkRat num (10 ^ (-e).toNat))

/-- `parseFloat` applied to a possibly-absent field (`parseFloat(undefined)`
is NaN). -/
def jsParseFloat (o : Option String) : Option Rat :=
  o.bind parseFloat?

/-! ## Data model (src/app/models/store.server.ts, order payload fields consumed) -/

/-- Subscription plan tier. -/
inductive Plan
  | free
  | pro
  | business
deriving DecidableEq

/-- Trial/subscription status of a tenant (fields read by the core). -/
structure TrialStatus where
  isActive : Bool
  plan : Plan
deriving DecidableEq

/-- Per-factor enable toggles, as stored in `StoreSettings.riskFactors`. -/
structure RiskFactors where
  orderValue : Bool
  customerHistory : Bool
  ipLocation : Bool
  checkoutSpeed : Bool
  addressMismatch : Bool
  emailDomain : Bool
  orderTime : Bool
  giftCardUse : Bool
  quantitySpike : Bool
deriving DecidableEq

/-- Risk level thresholds; JavaScript numbers modelled as rationals. -/
structure RiskThresholds where
  high : Rat
  medium : Rat
deriving DecidableEq

/-- Automation flags of a tenant. -/
structure Automations where
  holdHighRiskOrders : Bool
  emailVerification : Bool
  cancelHighRiskOrders : Bool
  customEmail : Bool
  flagForReview : Bool
  customEmailTemplate : Option String
deriving DecidableEq

/-- Email notification channel settings. -/
structure EmailSettings where
  enabled : Bool
  address : String
deriving DecidableEq

/-- Slack notification channel settings. -/
structure SlackSettings where
  enabled : Bool
  webhookUrl : String
deriving DecidableEq

/-- Notification delivery frequency. -/
inductive Frequency
  | immediate
  | hourly
  | daily
deriving DecidableEq

/-- Notification settings of a tenant. -/
structure NotificationSettings where
  email : EmailSettings
  slack : SlackSettings
  frequency : Frequency
deriving DecidableEq

/-- Tenant store settings (the fields the core reads). -/
structure StoreSettings where
  riskThresholds : RiskThresholds
  riskFactors : RiskFactors
  notifications : NotificationSettings
  automations : Automations
deriving DecidableEq

/-- Address fields compared by the scoring engine; individual fields may be
absent in a Shopify payload. -/
structure Address where
  zip : Option String
  city : Option String
  country : Option String
deriving DecidableEq

/-- Customer fields consumed by the scoring engine. -/
structure Customer where
  email : Option String
deriving DecidableEq

/-- Inbound Shopify order payload, restricted to the fields the scoring
pipeline consumes.  `client_details_browser_ip` stands for the nested
`client_details.browser_ip`. -/
structure OrderPayload where
  id : Option String
  total_price : Option String
  billing_address : Option Address
  shipping_address : Option Address
  customer : Option Customer
  browser_ip : Option String
  created_at : Option String
  payment_gateway_names : Option (List String)
  client_details_browser_ip : Option String
deriving DecidableEq

/-- Discrete risk level of a verdict. -/
inductive RiskLevel
  | low
  | medium
  | high
deriving DecidableEq

/-- Recommended order status of a verdict. -/
inductive OrderStatus
  | approved
  | pending
  | declined
  | on_hold
deriving DecidableEq

/-- One triggered risk factor: name, human-readable description, and score
contribution. -/
structure RiskFactorResult where
  factor : String
  description : String
  riskContribution : Nat
deriving DecidableEq

/-- Risk verdict returned by `analyzeOrderRisk`. -/
structure RiskVerdict where
  score : Nat
  level : RiskLevel
  factors : List String
  reviewed : Bool
  status : OrderStatus
  ipAddress : Option String
  checkoutSpeed : Option Nat
deriving DecidableEq

/-! ## Risk scoring engine (src/app/utils/riskAnalysis.server.ts) -/

/-- Plan eligibility: `trialStatus?.isActive || trialStatus?.plan === 'pro' ||
trialStatus?.plan === 'business'`. -/
def isProOf (trialStatus : Option TrialStatus) : Bool :=
  trialStatus.any (fun t => t.isActive || t.plan == Plan.pro || t.plan == Plan.business)

/-- Default thresholds used when the tenant has no stored settings. -/
def defaultThresholds : RiskThresholds :=
  { high := 75, medium := 50 }

/-- Default factor toggles used when the tenant has no stored settings (all
enabled). -/
def defaultRiskFactors : RiskFactors :=
  { orderValue := true, customerHistory := true, ipLocation := true,
    checkoutSpeed := true, addressMismatch := true, emailDomain := true,
    orderTime := true, giftCardUse := true, quantitySpike := true }

/-- Factor set forced for non-pro tenants: only the basic three, regardless of
tenant configuration. -/
def freeRiskFactors : RiskFactors :=
  { orderValue := true, customerHistory := false, ipLocation := false,
    checkoutSpeed := false, addressMismatch := true, emailDomain := true,
    orderTime := false, giftCardUse := false, quantitySpike := false }

/-- Thresholds read from the settings: `storeSettings?.riskThresholds ||
\x7b high: 75, medium: 50 \x7d`. -/
def riskThresholdsOf (storeSettings : Option StoreSettings) : RiskThresholds :=
  match storeSettings with
  | some st => st.riskThresholds
  | none => defaultThresholds

/-- Factor toggles read from the settings, defaulting to all enabled. -/
def enabledFactorsOf (storeSettings : Option StoreSettings) : RiskFactors :=
  match storeSettings with
  | some st => st.riskFactors
  | none => defaultRiskFactors

/-- Hardcoded list of suspicious disposable email domains. -/
def suspiciousDomains : List String :=
  ["tempmail.com", "throwawaymail.com", "mailinator.com",
   "guerrillamail.com", "yopmail.com", "sharklasers.com"]

/-- The orderValue factor block: parse the total price; above 1000 contributes
20, above 500 contributes 10, otherwise (including NaN) nothing. -/
def orderValueCheck (enabled : Bool) (order : OrderPayload) : List RiskFactorResult :=
  if enabled then
    match jsParseFloat order.total_price with
    | some totalPrice =>
        if totalPrice > 1000 then
          [{ factor := "orderValue", description := "High value order", riskContribution := 20 }]
        else if totalPrice > 500 then
          [{ factor := "orderValue", description := "Medium-high value order", riskContribution := 10 }]
        else []
    | none => []
  else []

/-- The addressMismatch factor block: both addresses present and any of zip,
city, country differing contributes 15. -/
def addressMismatchCheck (enabled : Bool) (order : OrderPayload) : List RiskFactorResult :=
  match enabled, order.billing_address, order.shipping_address with
  | true, some billing, some shipping =>
      if billing.zip ≠ shipping.zip ∨ billing.city ≠ shipping.city ∨
          billing.country ≠ shipping.country then
        [{ factor := "addressMismatch",
           description := "Billing and shipping addresses don't match",
           riskContribution := 15 }]
      else []
  | _, _, _ => []

/-- The emailDomain factor block: the lower-cased part after the first `@` of
a present, truthy customer email lying in `suspiciousDomains` contributes
25. -/
def emailDomainCheck (enabled : Bool) (order : OrderPayload) : List RiskFactorResult :=
  match enabled, order.customer with
  | true, some c =>
      match c.email with
      | some e =>
          if e != "" then
            match (strSplit (lowerStr e) '@').get? 1 with
            | some domain =>
                if domain != "" && suspiciousDomains.contains domain then
                  [{ factor := "emailDomain", description := "Suspicious email domain",
                     riskContribution := 25 }]
                else []
            | none => []
          else []
      | none => []
  | _, _ => []

/-- The ipLocation factor block (pro only): a truthy captured browser IP
contributes 5. -/
def ipLocationCheck (enabled : Bool) (order : OrderPayload) : List RiskFactorResult :=
  if enabled && truthyStr order.browser_ip then
    [{ factor := "ipLocation", description := "IP address tracking enabled",
       riskContribution := 5 }]
  else []

/-- The orderTime factor block (pro only): a present, truthy `created_at`
whose server-local hour (supplied by `hourOf`; `none` models an invalid date,
whose NaN hour fails both comparisons) is at least 22 or at most 4 contributes
10. -/
def orderTimeCheck (hourOf : String → Option Nat) (enabled : Bool)
    (order : OrderPayload) : List RiskFactorResult :=
  match enabled, order.created_at with
  | true, some s =>
      if s != "" then
        match hourOf s with
        | some hourOfDay =>
            if 22 ≤ hourOfDay ∨ hourOfDay ≤ 4 then
              [{ factor := "orderTime", description := "Order placed during unusual hours",
                 riskContribution := 10 }]
            else []
        | none => []
      else []
  | _, _ => []

/-- The giftCardUse factor block (pro only): a present gateway array with some
name containing "gift" case-insensitively contributes 15. -/
def giftCardCheck (enabled : Bool) (order : OrderPayload) : List RiskFactorResult :=
  match enabled, order.payment_gateway_names with
  | true, some gateways =>
      if gateways.any (fun method => strIncludes (lowerStr method) "gift") then
        [{ factor := "giftCardUse", description := "Payment with gift card",
           riskContribution := 15 }]
      else []
  | _, _ => []

/-- Risk level as a step function of the score against the thresholds. -/
def levelOf (t : RiskThresholds) (totalRiskScore : Nat) : RiskLevel :=
  if (totalRiskScore : Rat) ≥ t.high then RiskLevel.high
  else if (totalRiskScore : Rat) ≥ t.medium then RiskLevel.medium
  else RiskLevel.low

/-- Status derivation from the level and the tenant automation flags, first
match winning. -/
def statusOf (level : RiskLevel) (storeSettings : Option StoreSettings) : OrderStatus :=
  if level = RiskLevel.high ∧ (storeSettings.map (fun st => st.automations.holdHighRiskOrders)).getD false then
    OrderStatus.on_hold
  else if level = RiskLevel.high ∧ (storeSettings.map (fun st => st.automations.flagForReview)).getD false then
    OrderStatus.pending
  else if level = RiskLevel.high ∧ (storeSettings.map (fun st => st.automations.cancelHighRiskOrders)).getD false then
    OrderStatus.declined
  else
    OrderStatus.approved

/-- The triggered risk factor entries, in evaluation order: the three basic
blocks, then (for pro tenants only) the three implemented pro blocks. -/
def riskFactorEntries (hourOf : String → Option Nat) (order : OrderPayload)
    (storeSettings : Option StoreSettings) (trialStatus : Option TrialStatus) :
    List RiskFactorResult :=
  let isPro := isProOf trialStatus
  let factorsToCheck := if isPro then enabledFactorsOf storeSettings else freeRiskFactors
  orderValueCheck factorsToCheck.orderValue order ++
    addressMismatchCheck factorsToCheck.addressMismatch order ++
    emailDomainCheck factorsToCheck.emailDomain order ++
    (if isPro then
      ipLocationCheck factorsToCheck.ipLocation order ++
        orderTimeCheck hourOf factorsToCheck.orderTime order ++
        giftCardCheck factorsToCheck.giftCardUse order
    else [])

/-- Shallow embedding of `analyzeOrderRisk`.  The configuration and trial
reads are supplied as arguments; `hourOf` supplies the server-local hour of a
date string (the `new Date(s).getHours()` environment call). -/
def analyzeOrderRisk (hourOf : String → Option Nat) (order : OrderPayload)
    (storeSettings : Option StoreSettings) (trialStatus : Option TrialStatus) :
    RiskVerdict :=
  let riskThresholds := riskThresholdsOf storeSettings
  let riskFactors := riskFactorEntries hourOf order storeSettings trialStatus
  let totalRiskScore := (riskFactors.map (fun f => f.riskContribution)).sum
  let riskLevel := levelOf riskThresholds totalRiskScore
  { score := totalRiskScore,
    level := riskLevel,
    factors := riskFactors.map (fun f => f.description),
    reviewed := false,
    status := statusOf riskLevel storeSettings,
    ipAddress := jsOr order.browser_ip order.client_details_browser_ip,
    checkoutSpeed := none }

/-! ## Order repository and notification dispatcher
(src/app/models/order.server.ts, src/app/utils/notifications.server.ts) -/

/-- A persisted order record, restricted to the fields the notification
dispatcher and the pipeline read. -/
structure StoredOrder where
  shopId : String
  orderId : String
  orderNumber : String
  riskAnalysis : RiskVerdict
deriving DecidableEq

/-- Repository lookup `getOrderById`: first record matching (tenant, external
order id). -/
def getOrderById (repo : List StoredOrder) (shopId orderId : String) : Option StoredOrder :=
  repo.find? (fun o => o.shopId == shopId && o.orderId == orderId)

/-- One outbound notification delivery attempted by the dispatcher. -/
inductive Delivery
  | email (address : String) (customTemplate : Option String)
  | slack (webhookUrl : String)
deriving DecidableEq

/-- Shallow embedding of `sendRiskNotifications`: the guard chain followed by
the channel dispatches, returning the list of deliveries attempted (empty when
the guards short-circuit). -/
def sendRiskNotificationsFn (order : StoredOrder) (storeSettings : Option StoreSettings)
    (trialStatus : Option TrialStatus) : List Delivery :=
  let isPro := isProOf trialStatus
  if order.riskAnalysis.level ≠ RiskLevel.high ∧ order.riskAnalysis.level ≠ RiskLevel.medium then
    []
  else
    match storeSettings with
    | none => []
    | some st =>
        if ¬isPro ∧ order.riskAnalysis.level ≠ RiskLevel.high then []
        else if st.notifications.frequency ≠ Frequency.immediate then []
        else
          (if st.notifications.email.enabled && st.notifications.email.address != "" then
            [Delivery.email st.notifications.email.address st.automations.customEmailTemplate]
          else []) ++
          (if isPro && st.notifications.slack.enabled && st.notifications.slack.webhookUrl != "" then
            [Delivery.slack st.notifications.slack.webhookUrl]
          else [])

/-! ## Webhook ingestion pipeline (src/app/routes/webhooks.orders.created.tsx) -/

/-- The pipeline stages observable in `processWebhook`, in invocation order. -/
inductive Stage
  | scoring
  | repositoryWrite
  | notificationDispatch
  | realtimeBroadcast
deriving DecidableEq

/-- Headers and raw body of an inbound webhook delivery. -/
structure WebhookRequest where
  signatureHeader : Option String
  shopHeader : Option String
  topicHeader : Option String
  rawBody : String
deriving DecidableEq

/-- Shallow embedding of the asynchronous `processWebhook` body.  External
effects are parameters: `hmacOf` is the base64 HMAC-SHA256 of a raw body under
the app secret, `parse` is JSON parsing of the raw body (`none` models a parse
exception), `hourOf` the server-local clock.  Returns the repository after the
run together with the ordered trace of pipeline stages that executed. -/
def processWebhook (hmacOf : String → String) (parse : String → Option OrderPayload)
    (hourOf : String → Option Nat) (req : WebhookRequest)
    (storeSettings : Option StoreSettings) (trialStatus : Option TrialStatus)
    (repo : List StoredOrder) : List StoredOrder × List Stage :=
  match req.signatureHeader with
  | some signature =>
      if signature ≠ hmacOf req.rawBody then (repo, [])
      else processVerifiedWebhook parse hourOf req storeSettings trialStatus repo
  | none => processVerifiedWebhook parse hourOf req storeSettings trialStatus repo
where
  /-- The body of `processWebhook` after signature validation. -/
  processVerifiedWebhook (parse : String → Option OrderPayload)
      (hourOf : String → Option Nat) (req : WebhookRequest)
      (storeSettings : Option StoreSettings) (trialStatus : Option TrialStatus)
      (repo : List StoredOrder) : List StoredOrder × List Stage :=
    match parse req.rawBody with
    | none => (repo, [])
    | some payload =>
        match req.shopHeader with
        | none => (repo, [])
        | some shop =>
            let riskAnalysis := analyzeOrderRisk hourOf payload storeSettings trialStatus
            match payload.id with
            | none => (repo, [Stage.scoring])
            | some orderId =>
                let repo2 := repo ++ [{ shopId := shop, orderId := orderId,
                                        orderNumber := orderId, riskAnalysis := riskAnalysis }]
                (repo2,
                  [Stage.scoring, Stage.repositoryWrite] ++
                    if (getOrderById repo2 shop orderId).isSome then
                      [Stage.notificationDispatch]
                    else [])

/-! ## Realtime broadcast registry (src/app/utils/websocket.server.ts) -/

/-- The per-tenant connection registry `shopConnections`; connections are
identified by numbers. -/
abbrev Registry := List (String × List Nat)

/-- Set of connections registered for a tenant. -/
def regGet (r : Registry) (shop : String) : Option (List Nat) :=
  (r.find? (fun e => e.1 == shop)).map (fun e => e.2)

/-- Set-insert for the connection list backing a `Set<WebSocket>`. -/
def setInsert (c : Nat) (l : List Nat) : List Nat :=
  if c ∈ l then l else l ++ [c]

/-- Set-delete for the connection list backing a `Set<WebSocket>`. -/
def setDelete (c : Nat) (l : List Nat) : List Nat :=
  l.filter (fun x => x != c)

/-- Registry-relevant events of the connection handler: an attach attempt
(with the optional `shop` query value), a close event, an error event. -/
inductive WsEvent
  | connect (shop : Option String) (c : Nat)
  | close (shop : String) (c : Nat)
  | errorEv (shop : String) (c : Nat)
deriving DecidableEq

/-- Transition of the registry under one connection-handler event, as
implemented in `initializeWebSocketServer`: an attach without a shop id is
rejected; an attach registers the connection (creating the tenant entry if
absent); a close removes the connection and deletes the tenant entry when its
set becomes empty; the error handler only logs. -/
def wsStep (r : Registry) : WsEvent → Registry
  | WsEvent.connect none _ => r
  | WsEvent.connect (some shop) c =>
      match regGet r shop with
      | some _ => r.map (fun e => if e.1 == shop then (e.1, setInsert c e.2) else e)
      | none => r ++ [(shop, [c])]
  | WsEvent.close shop c =>
      match regGet r shop with
      | some l =>
          if (setDelete c l).isEmpty then r.filter (fun e => !(e.1 == shop))
          else r.map (fun e => if e.1 == shop then (e.1, setDelete c l) else e)
      | none => r
  | WsEvent.errorEv _ _ => r

/-- Envelope pushed by `broadcastUpdate` to each open connection, and the
new-order event shape of `notifyNewOrder`; recorded here to fix the message
format the broadcast path would use. -/
def newOrderEnvelope (orderSummary : String) : String :=
  String.join ["\x7b\"type\":\"update\",\"data\":\x7b\"event\":\"new_order\",\"order\":",
    orderSummary, "\x7d\x7d"]

/-! ## Helper lemmas -/

/-- The verdict level is the step function of the verdict score. -/
lemma analyzeOrderRisk_level_eq (hourOf : String → Option Nat) (order : OrderPayload)
    (ss : Option StoreSettings) (ts : Option TrialStatus) :
    (analyzeOrderRisk hourOf order ss ts).level =
      levelOf (riskThresholdsOf ss) ((analyzeOrderRisk hourOf order ss ts).score) := rfl

/-- The verdict status is derived from the verdict level by `statusOf`. -/
lemma analyzeOrderRisk_status_eq (hourOf : String → Option Nat) (order : OrderPayload)
    (ss : Option StoreSettings) (ts : Option TrialStatus) :
    (analyzeOrderRisk hourOf order ss ts).status =
      statusOf ((analyzeOrderRisk hourOf order ss ts).level) ss := rfl

/-- Characterisation of `levelOf` as mutually exclusive threshold conditions. -/
lemma levelOf_spec (t : RiskThresholds) (s : Nat) :
    (levelOf t s = RiskLevel.high ↔ (s : Rat) ≥ t.high) ∧
    (levelOf t s = RiskLevel.medium ↔ t.medium ≤ (s : Rat) ∧ (s : Rat) < t.high) ∧
    (levelOf t s = RiskLevel.low ↔ (s : Rat) < t.medium ∧ (s : Rat) < t.high) := by
  unfold levelOf
  split_ifs with h1 h2 <;> refine ⟨?_, ?_, ?_⟩ <;> simp_all

/-- Sample concrete inputs used by the scenario theorem and by witnesses: the
order of spec scenario §8 (value 1200.00, mismatched country, mailinator.com
email, created at hour 23, paid by gift card, no captured IP). -/
def sampleOrder : OrderPayload :=
  { id := some "9001",
    total_price := some "1200.00",
    billing_address := some { zip := some "10001", city := some "New York", country := some "US" },
    shipping_address := some { zip := some "10001", city := some "New York", country := some "CA" },
    customer := some { email := some "Foo@Mailinator.com" },
    browser_ip := none,
    created_at := some "2024-01-01T23:00:00",
    payment_gateway_names := some ["Gift Card"],
    client_details_browser_ip := none }

/-- Sample tenant settings: all factors enabled, default thresholds, hold on
high risk enabled. -/
def sampleSettings : StoreSettings :=
  { riskThresholds := defaultThresholds,
    riskFactors := defaultRiskFactors,
    notifications := { email := { enabled := true, address := "merchant@example.com" },
                       slack := { enabled := true, webhookUrl := "https://hooks.example.com/x" },
                       frequency := Frequency.immediate },
    automations := { holdHighRiskOrders := true, emailVerification := false,
                     cancelHighRiskOrders := true, customEmail := false,
                     flagForReview := true, customEmailTemplate := none } }

/-- Sample pro-plan trial status. -/
def sampleTrial : TrialStatus :=
  { isActive := false, plan := Plan.pro }

/-- Sample server-local clock: every date string maps to hour 23. -/
def sampleHourOf : String → Option Nat :=
  fun _ => some 23

/-- C1: for every order payload, tenant configuration and subscription status,
the returned level is the step function of the returned score against the
tenant thresholds — high iff score ≥ high threshold, medium iff medium ≤
score < high, low otherwise — and a tenant without stored settings gets the
default thresholds high=75, medium=50. -/
theorem analyzeOrderRisk_level_step_function :
    ∀ (hourOf : String → Option Nat) (order : OrderPayload)
      (ss : Option StoreSettings) (ts : Option TrialStatus),
    ((analyzeOrderRisk hourOf order ss ts).level = RiskLevel.high ↔
        ((analyzeOrderRisk hourOf order ss ts).score : Rat) ≥ (riskThresholdsOf ss).high) ∧
    ((analyzeOrderRisk hourOf order ss ts).level = RiskLevel.medium ↔
        (riskThresholdsOf ss).medium ≤ ((analyzeOrderRisk hourOf order ss ts).score : Rat) ∧
          ((analyzeOrderRisk hourOf order ss ts).score : Rat) < (riskThresholdsOf ss).high) ∧
    ((analyzeOrderRisk hourOf order ss ts).level = RiskLevel.low ↔
        ((analyzeOrderRisk hourOf order ss ts).score : Rat) < (riskThresholdsOf ss).medium ∧
          ((analyzeOrderRisk hourOf order ss ts).score : Rat) < (riskThresholdsOf ss).high) ∧
    riskThresholdsOf none = { high := 75, medium := 50 } := by
  intro hourOf order ss ts
  have h := levelOf_spec (riskThresholdsOf ss) ((analyzeOrderRisk hourOf order ss ts).score)
  rw [analyzeOrderRisk_level_eq] at *
  exact ⟨h.1, h.2.1, h.2.2, rfl⟩

/-- C4: the spec scenario — a 1200.00 order with mismatched country,
mailinator.com email, hour 23, gift-card gateway and no captured IP, scored
for a pro tenant with all factors enabled, default thresholds and
holdHighRiskOrders=true, yields score 85 = 20+15+25+10+15, level high and
status on_hold. -/
theorem analyzeOrderRisk_pro_scenario_85_high_on_hold :
    (analyzeOrderRisk sampleHourOf sampleOrder (some sampleSettings) (some sampleTrial)).score =
        20 + 15 + 25 + 10 + 15 ∧
    (analyzeOrderRisk sampleHourOf sampleOrder (some sampleSettings) (some sampleTrial)).level =
        RiskLevel.high ∧
    (analyzeOrderRisk sampleHourOf sampleOrder (some sampleSettings) (some sampleTrial)).status =
        OrderStatus.on_hold := by
  refine ⟨by decide, by decide, by decide⟩

/-- For a non-pro tenant the triggered entries are exactly the three basic
blocks with forced-on toggles, independently of the stored factor toggles. -/
lemma riskFactorEntries_nonpro (hourOf : String → Option Nat) (order : OrderPayload)
    (ss : Option StoreSettings) (ts : Option TrialStatus) (h : isProOf ts = false) :
    riskFactorEntries hourOf order ss ts =
      orderValueCheck true order ++ addressMismatchCheck true order ++
        emailDomainCheck true order := by
  unfold riskFactorEntries
  simp [h, freeRiskFactors]

/-- C2: for every order and tenant configuration of a non-pro tenant, the six
pro-gated factors contribute nothing: the score and factor list come from the
orderValue, addressMismatch and emailDomain blocks alone, independently of the
configured toggle state of any factor. -/
theorem analyzeOrderRisk_nonpro_basic_factors_only :
    ∀ (hourOf : String → Option Nat) (order : OrderPayload)
      (ss : Option StoreSettings) (ts : Option TrialStatus),
    isProOf ts = false →
    (analyzeOrderRisk hourOf order ss ts).score =
        ((orderValueCheck true order ++ addressMismatchCheck true order ++
          emailDomainCheck true order).map (fun f => f.riskContribution)).sum ∧
    (analyzeOrderRisk hourOf order ss ts).factors =
        (orderValueCheck true order ++ addressMismatchCheck true order ++
          emailDomainCheck true order).map (fun f => f.description) := by
  intro hourOf order ss ts h
  unfold analyzeOrderRisk
  rw [riskFactorEntries_nonpro hourOf order ss ts h]
  exact ⟨rfl, rfl⟩

/-- C2 witness: a free-plan tenant without stored settings, on the sample
order. -/
theorem analyzeOrderRisk_nonpro_basic_factors_only_witness :
    (analyzeOrderRisk sampleHourOf sampleOrder none (some { isActive := false, plan := Plan.free })).score =
        ((orderValueCheck true sampleOrder ++ addressMismatchCheck true sampleOrder ++
          emailDomainCheck true sampleOrder).map (fun f => f.riskContribution)).sum ∧
    (analyzeOrderRisk sampleHourOf sampleOrder none (some { isActive := false, plan := Plan.free })).factors =
        (orderValueCheck true sampleOrder ++ addressMismatchCheck true sampleOrder ++
          emailDomainCheck true sampleOrder).map (fun f => f.description) :=
  analyzeOrderRisk_nonpro_basic_factors_only sampleHourOf sampleOrder none
    (some { isActive := false, plan := Plan.free }) (by decide)

/-- The orderValue block contributes at most 20. -/
lemma orderValueCheck_sum_le (b : Bool) (order : OrderPayload) :
    ((orderValueCheck b order).map (fun f => f.riskContribution)).sum ≤ 20 := by
  unfold orderValueCheck
  repeat' split
  all_goals simp

/-- The addressMismatch block contributes at most 15. -/
lemma addressMismatchCheck_sum_le (b : Bool) (order : OrderPayload) :
    ((addressMismatchCheck b order).map (fun f => f.riskContribution)).sum ≤ 15 := by
  unfold addressMismatchCheck
  repeat' split
  all_goals simp

/-- The emailDomain block contributes at most 25. -/
lemma emailDomainCheck_sum_le (b : Bool) (order : OrderPayload) :
    ((emailDomainCheck b order).map (fun f => f.riskContribution)).sum ≤ 25 := by
  unfold emailDomainCheck
  repeat' split
  all_goals simp

/-- A level other than high always resolves to approved. -/
lemma statusOf_ne_high (level : RiskLevel) (ss : Option StoreSettings)
    (h : level ≠ RiskLevel.high) : statusOf level ss = OrderStatus.approved := by
  unfold statusOf
  split_ifs with h1 h2 h3 <;> simp_all

/-- C10 (implicit): a non-pro tenant under the default 75/50 thresholds can
never reach a high verdict: the score is bounded by 60 = 20+15+25, the level
is below high, and the status is approved whatever the automation flags. -/
theorem analyzeOrderRisk_nonpro_default_always_approved :
    ∀ (hourOf : String → Option Nat) (order : OrderPayload)
      (ss : Option StoreSettings) (ts : Option TrialStatus),
    isProOf ts = false →
    riskThresholdsOf ss = defaultThresholds →
    (analyzeOrderRisk hourOf order ss ts).score ≤ 60 ∧
    (analyzeOrderRisk hourOf order ss ts).level ≠ RiskLevel.high ∧
    (analyzeOrderRisk hourOf order ss ts).status = OrderStatus.approved := by
  intro hourOf order ss ts hpro hth
  have hscore : (analyzeOrderRisk hourOf order ss ts).score ≤ 60 := by
    have h : (analyzeOrderRisk hourOf order ss ts).score =
        ((orderValueCheck true order ++ addressMismatchCheck true order ++
          emailDomainCheck true order).map (fun f => f.riskContribution)).sum := by
      unfold analyzeOrderRisk
      rw [riskFactorEntries_nonpro hourOf order ss ts hpro]
    rw [h]
    simp only [List.map_append, List.sum_append]
    have h1 := orderValueCheck_sum_le true order
    have h2 := addressMismatchCheck_sum_le true order
    have h3 := emailDomainCheck_sum_le true order
    omega
  have hlevel : (analyzeOrderRisk hourOf order ss ts).level ≠ RiskLevel.high := by
    rw [analyzeOrderRisk_level_eq, hth]
    unfold levelOf defaultThresholds
    have hlt : ((analyzeOrderRisk hourOf order ss ts).score : Rat) < 75 := by
      have : ((analyzeOrderRisk hourOf order ss ts).score : Rat) ≤ 60 := by
        exact_mod_cast Nat.cast_le.mpr hscore
      linarith
    split_ifs with h1 h2 <;> simp_all
    linarith
  exact ⟨hscore, hlevel, by
    rw [analyzeOrderRisk_status_eq]
    exact statusOf_ne_high _ _ hlevel⟩

/-- C10 witness: the sample order scored for a tenant with no stored settings
and no trial record. -/
theorem analyzeOrderRisk_nonpro_default_always_approved_witness :
    (analyzeOrderRisk sampleHourOf sampleOrder none none).score ≤ 60 ∧
    (analyzeOrderRisk sampleHourOf sampleOrder none none).level ≠ RiskLevel.high ∧
    (analyzeOrderRisk sampleHourOf sampleOrder none none).status = OrderStatus.approved :=
  analyzeOrderRisk_nonpro_default_always_approved sampleHourOf sampleOrder none none
    (by decide) rfl

/-- C3: status derivation follows the fixed priority with first match
winning — a high level with holdHighRiskOrders gives on_hold regardless of
the other automation flags; with hold off, flagForReview gives pending; with
both off, cancelHighRiskOrders gives declined; in every remaining case,
including every medium or low level, the status is approved. -/
theorem analyzeOrderRisk_status_priority :
    ∀ (hourOf : String → Option Nat) (order : OrderPayload)
      (ss : Option StoreSettings) (ts : Option TrialStatus),
    ((analyzeOrderRisk hourOf order ss ts).level = RiskLevel.high ∧
        (ss.map (fun st => st.automations.holdHighRiskOrders)).getD false = true →
      (analyzeOrderRisk hourOf order ss ts).status = OrderStatus.on_hold) ∧
    ((analyzeOrderRisk hourOf order ss ts).level = RiskLevel.high ∧
        (ss.map (fun st => st.automations.holdHighRiskOrders)).getD false = false ∧
        (ss.map (fun st => st.automations.flagForReview)).getD false = true →
      (analyzeOrderRisk hourOf order ss ts).status = OrderStatus.pending) ∧
    ((analyzeOrderRisk hourOf order ss ts).level = RiskLevel.high ∧
        (ss.map (fun st => st.automations.holdHighRiskOrders)).getD false = false ∧
        (ss.map (fun st => st.automations.flagForReview)).getD false = false ∧
        (ss.map (fun st => st.automations.cancelHighRiskOrders)).getD false = true →
      (analyzeOrderRisk hourOf order ss ts).status = OrderStatus.declined) ∧
    ((analyzeOrderRisk hourOf order ss ts).level ≠ RiskLevel.high ∨
        ((ss.map (fun st => st.automations.holdHighRiskOrders)).getD false = false ∧
          (ss.map (fun st => st.automations.flagForReview)).getD false = false ∧
          (ss.map (fun st => st.automations.cancelHighRiskOrders)).getD false = false) →
      (analyzeOrderRisk hourOf order ss ts).status = OrderStatus.approved) := by
  intro hourOf order ss ts
  rw [analyzeOrderRisk_status_eq]
  unfold statusOf
  split_ifs with h1 h2 h3 <;>
    refine ⟨?_, ?_, ?_, ?_⟩ <;> simp_all

/-- C3 witness: the sample pro scenario, whose level is high and whose tenant
has holdHighRiskOrders, flagForReview and cancelHighRiskOrders all set —
on_hold wins. -/
theorem analyzeOrderRisk_status_priority_witness :
    (analyzeOrderRisk sampleHourOf sampleOrder (some sampleSettings) (some sampleTrial)).status =
      OrderStatus.on_hold :=
  (analyzeOrderRisk_status_priority sampleHourOf sampleOrder (some sampleSettings)
    (some sampleTrial)).1 ⟨by decide, by decide⟩

/-- C8: an order whose total_price is missing or not parseable never makes
scoring fail — the orderValue block contributes nothing whatever its toggle,
and the whole verdict equals the verdict of the same order with the price
field absent, so all remaining factors proceed normally.  (The embedded
`analyzeOrderRisk` is a total function, so no exception is possible.) -/
theorem analyzeOrderRisk_unparseable_price_safe :
    ∀ (hourOf : String → Option Nat) (order : OrderPayload)
      (ss : Option StoreSettings) (ts : Option TrialStatus),
    jsParseFloat order.total_price = none →
    (∀ b : Bool, orderValueCheck b order = []) ∧
    analyzeOrderRisk hourOf order ss ts =
      analyzeOrderRisk hourOf { order with total_price := none } ss ts := by
  intro hourOf order ss ts h
  have hov : ∀ b : Bool, orderValueCheck b order = [] := by
    intro b
    unfold orderValueCheck
    rw [h]
    rcases b <;> simp
  refine ⟨hov, ?_⟩
  have hov2 : ∀ b : Bool, orderValueCheck b { order with total_price := none } = [] := by
    intro b
    unfold orderValueCheck
    rcases b <;> simp [jsParseFloat]
  unfold analyzeOrderRisk riskFactorEntries
  simp only [hov, hov2]
  rfl

/-- C8 witness: an order with a non-numeric total price. -/
theorem analyzeOrderRisk_unparseable_price_safe_witness :
    (∀ b : Bool, orderValueCheck b { sampleOrder with total_price := some "abc" } = []) ∧
    analyzeOrderRisk sampleHourOf { sampleOrder with total_price := some "abc" }
        (some sampleSettings) (some sampleTrial) =
      analyzeOrderRisk sampleHourOf
        { sampleOrder with total_price := none } (some sampleSettings) (some sampleTrial) :=
  analyzeOrderRisk_unparseable_price_safe sampleHourOf
    { sampleOrder with total_price := some "abc" } (some sampleSettings) (some sampleTrial)
    (by decide)

/-- C7: the dispatcher sends nothing for a low-level verdict, and for a
non-pro tenant it sends nothing whenever the level is not high; both guards
hold for every notification configuration (any frequency, any channel
enablement), showing they are evaluated before the frequency and channel
checks. -/
theorem sendRiskNotifications_level_guards :
    ∀ (order : StoredOrder) (ss : Option StoreSettings) (ts : Option TrialStatus),
    (order.riskAnalysis.level = RiskLevel.low →
      sendRiskNotificationsFn order ss ts = []) ∧
    (isProOf ts = false → order.riskAnalysis.level ≠ RiskLevel.high →
      sendRiskNotificationsFn order ss ts = []) := by
  intro order ss ts
  unfold sendRiskNotificationsFn
  constructor
  · intro hlow
    simp [hlow]
  · intro hpro hnh
    rcases ss with _ | st
    · rcases order.riskAnalysis.level <;> simp
    · rcases h : order.riskAnalysis.level <;> simp_all

/-- C7 witness: a low-level order for a pro tenant whose settings enable every
channel at immediate frequency — still no delivery is attempted. -/
theorem sendRiskNotifications_level_guards_witness :
    sendRiskNotificationsFn
        { shopId := "shop1.myshopify.com", orderId := "9001", orderNumber := "9001",
          riskAnalysis := { score := 0, level := RiskLevel.low, factors := [],
                            reviewed := false, status := OrderStatus.approved,
                            ipAddress := none, checkoutSpeed := none } }
        (some sampleSettings) (some sampleTrial) = [] :=
  (sendRiskNotifications_level_guards
      { shopId := "shop1.myshopify.com", orderId := "9001", orderNumber := "9001",
        riskAnalysis := { score := 0, level := RiskLevel.low, factors := [],
                          reviewed := false, status := OrderStatus.approved,
                          ipAddress := none, checkoutSpeed := none } }
      (some sampleSettings) (some sampleTrial)).1 (by decide)

/-- C6: a webhook delivery carrying a signature header that differs from the
HMAC of the raw body aborts immediately: the repository is unchanged (no
order record is created) and no pipeline stage runs.  The result does not
depend on the `parse` argument, so processing stops before the payload is
parsed. -/
theorem processWebhook_bad_signature_aborts :
    ∀ (hmacOf : String → String) (parse : String → Option OrderPayload)
      (hourOf : String → Option Nat) (req : WebhookRequest)
      (ss : Option StoreSettings) (ts : Option TrialStatus)
      (repo : List StoredOrder) (sig : String),
    req.signatureHeader = some sig → sig ≠ hmacOf req.rawBody →
    processWebhook hmacOf parse hourOf req ss ts repo = (repo, []) := by
  intro hmacOf parse hourOf req ss ts repo sig hsig hne
  unfold processWebhook
  rw [hsig]
  simp [hne]

/-- C6 witness: a delivery whose signature header differs from the expected
digest, against an HMAC oracle returning a fixed digest. -/
theorem processWebhook_bad_signature_aborts_witness :
    processWebhook (fun _ => "expected-digest") (fun _ => some sampleOrder) sampleHourOf
        { signatureHeader := some "tampered", shopHeader := some "shop1.myshopify.com",
          topicHeader := some "orders/create", rawBody := "body" }
        (some sampleSettings) (some sampleTrial) [] = ([], []) :=
  processWebhook_bad_signature_aborts (fun _ => "expected-digest") (fun _ => some sampleOrder)
    sampleHourOf
    { signatureHeader := some "tampered", shopHeader := some "shop1.myshopify.com",
      topicHeader := some "orders/create", rawBody := "body" }
    (some sampleSettings) (some sampleTrial) [] "tampered" rfl (by decide)

/-- A record just appended to the repository is found by `getOrderById`. -/
lemma getOrderById_append_self (repo : List StoredOrder) (r : StoredOrder) :
    ∃ x, getOrderById (repo ++ [r]) r.shopId r.orderId = some x := by
  induction repo with
  | nil =>
      refine ⟨r, ?_⟩
      simp [getOrderById]
  | cons a rest ih =>
      unfold getOrderById at *
      rcases hpa : (a.shopId == r.shopId && a.orderId == r.orderId) with _ | _
      · simpa [List.find?, hpa] using ih
      · exact ⟨a, by simp [List.find?, hpa]⟩

/-- The pipeline trace never contains the realtime broadcast stage. -/
lemma processWebhook_no_broadcast (hmacOf : String → String)
    (parse : String → Option OrderPayload) (hourOf : String → Option Nat)
    (req : WebhookRequest) (ss : Option StoreSettings) (ts : Option TrialStatus)
    (repo : List StoredOrder) :
    Stage.realtimeBroadcast ∉ (processWebhook hmacOf parse hourOf req ss ts repo).2 := by
  unfold processWebhook processWebhook.processVerifiedWebhook
  repeat' split
  all_goals simp

/-- A fully successful run executes scoring, the repository write and the
notification dispatch, in that order, and appends exactly one record. -/
lemma processVerifiedWebhook_success (parse : String → Option OrderPayload)
    (hourOf : String → Option Nat) (req : WebhookRequest)
    (ss : Option StoreSettings) (ts : Option TrialStatus) (repo : List StoredOrder)
    (payload : OrderPayload) (shop orderId : String)
    (hparse : parse req.rawBody = some payload) (hshop : req.shopHeader = some shop)
    (hid : payload.id = some orderId) :
    processWebhook.processVerifiedWebhook parse hourOf req ss ts repo =
      (repo ++ [{ shopId := shop, orderId := orderId, orderNumber := orderId,
                  riskAnalysis := analyzeOrderRisk hourOf payload ss ts }],
       [Stage.scoring, Stage.repositoryWrite, Stage.notificationDispatch]) := by
  unfold processWebhook.processVerifiedWebhook
  obtain ⟨x, hx⟩ := getOrderById_append_self repo
    { shopId := shop, orderId := orderId, orderNumber := orderId,
      riskAnalysis := analyzeOrderRisk hourOf payload ss ts }
  simp only [hparse, hshop, hid]
  simp [hx]

/-- C5 counterexample: a concrete webhook delivery that passes verification,
parsing, scoring and persistence, and reaches the notification dispatcher —
yet the realtime broadcast stage is not in its trace: `processWebhook` never
invokes `notifyNewOrder`. -/
theorem processWebhook_broadcast_never_triggered_cex :
    (processWebhook (fun _ => "sig") (fun _ => some sampleOrder) sampleHourOf
        { signatureHeader := some "sig", shopHeader := some "shop1.myshopify.com",
          topicHeader := some "orders/create", rawBody := "body" }
        (some sampleSettings) (some sampleTrial) []).2 =
      [Stage.scoring, Stage.repositoryWrite, Stage.notificationDispatch] ∧
    Stage.realtimeBroadcast ∉
      (processWebhook (fun _ => "sig") (fun _ => some sampleOrder) sampleHourOf
        { signatureHeader := some "sig", shopHeader := some "shop1.myshopify.com",
          topicHeader := some "orders/create", rawBody := "body" }
        (some sampleSettings) (some sampleTrial) []).2 := by
  refine ⟨by decide, by decide⟩

/-- C5 (amended): after verification, parsing and a present shop header, the
pipeline runs the Scoring Engine, then the Order Repository write, then the
Notification Dispatcher, in that sequence — but the Realtime Broadcast stage
is never triggered on any input: `notifyNewOrder` has no caller in the
pipeline. -/
theorem processWebhook_stage_sequence_no_broadcast :
    ∀ (hmacOf : String → String) (parse : String → Option OrderPayload)
      (hourOf : String → Option Nat) (req : WebhookRequest)
      (ss : Option StoreSettings) (ts : Option TrialStatus) (repo : List StoredOrder)
      (payload : OrderPayload) (shop orderId : String),
    (∀ sig, req.signatureHeader = some sig → sig = hmacOf req.rawBody) →
    parse req.rawBody = some payload →
    req.shopHeader = some shop →
    payload.id = some orderId →
    ((processWebhook hmacOf parse hourOf req ss ts repo).2 =
        [Stage.scoring, Stage.repositoryWrite, Stage.notificationDispatch] ∧
      (processWebhook hmacOf parse hourOf req ss ts repo).1 =
        repo ++ [{ shopId := shop, orderId := orderId, orderNumber := orderId,
                   riskAnalysis := analyzeOrderRisk hourOf payload ss ts }]) ∧
    (∀ (hmacOf2 : String → String) (parse2 : String → Option OrderPayload)
        (hourOf2 : String → Option Nat) (req2 : WebhookRequest)
        (ss2 : Option StoreSettings) (ts2 : Option TrialStatus)
        (repo2 : List StoredOrder),
      Stage.realtimeBroadcast ∉ (processWebhook hmacOf2 parse2 hourOf2 req2 ss2 ts2 repo2).2) := by
  intro hmacOf parse hourOf req ss ts repo payload shop orderId hsig hparse hshop hid
  refine ⟨?_, fun h2 p2 ho2 r2 s2 t2 rp2 => processWebhook_no_broadcast h2 p2 ho2 r2 s2 t2 rp2⟩
  have hrun : processWebhook hmacOf parse hourOf req ss ts repo =
      (repo ++ [{ shopId := shop, orderId := orderId, orderNumber := orderId,
                  riskAnalysis := analyzeOrderRisk hourOf payload ss ts }],
       [Stage.scoring, Stage.repositoryWrite, Stage.notificationDispatch]) := by
    unfold processWebhook
    rcases hs : req.signatureHeader with _ | sig
    · exact processVerifiedWebhook_success parse hourOf req ss ts repo payload shop orderId
        hparse hshop hid
    · have heq : sig = hmacOf req.rawBody := hsig sig hs
      simp only [heq, ne_eq, not_true_eq_false, if_false, ite_false]
      exact processVerifiedWebhook_success parse hourOf req ss ts repo payload shop orderId
        hparse hshop hid
  rw [hrun]
  exact ⟨rfl, rfl⟩

/-- C5 witness: the concrete successful delivery used above, discharging the
verification, parse, shop and id hypotheses. -/
theorem processWebhook_stage_sequence_no_broadcast_witness :
    ((processWebhook (fun _ => "sig") (fun _ => some sampleOrder) sampleHourOf
        { signatureHeader := some "sig", shopHeader := some "shop1.myshopify.com",
          topicHeader := some "orders/create", rawBody := "body" }
        (some sampleSettings) (some sampleTrial) []).2 =
        [Stage.scoring, Stage.repositoryWrite, Stage.notificationDispatch] ∧
      (processWebhook (fun _ => "sig") (fun _ => some sampleOrder) sampleHourOf
        { signatureHeader := some "sig", shopHeader := some "shop1.myshopify.com",
          topicHeader := some "orders/create", rawBody := "body" }
        (some sampleSettings) (some sampleTrial) []).1 =
        [] ++ [{ shopId := "shop1.myshopify.com", orderId := "9001", orderNumber := "9001",
                 riskAnalysis := analyzeOrderRisk sampleHourOf sampleOrder
                   (some sampleSettings) (some sampleTrial) }]) ∧
    (∀ (hmacOf2 : String → String) (parse2 : String → Option OrderPayload)
        (hourOf2 : String → Option Nat) (req2 : WebhookRequest)
        (ss2 : Option StoreSettings) (ts2 : Option TrialStatus)
        (repo2 : List StoredOrder),
      Stage.realtimeBroadcast ∉ (processWebhook hmacOf2 parse2 hourOf2 req2 ss2 ts2 repo2).2) :=
  processWebhook_stage_sequence_no_broadcast (fun _ => "sig") (fun _ => some sampleOrder)
    sampleHourOf
    { signatureHeader := some "sig", shopHeader := some "shop1.myshopify.com",
      topicHeader := some "orders/create", rawBody := "body" }
    (some sampleSettings) (some sampleTrial) [] sampleOrder "shop1.myshopify.com" "9001"
    (fun sig hs => by simpa using congrArg (fun o => o.getD "") hs.symm)
    rfl rfl (by decide)

/-- Looking up a tenant after updating that tenant's entry in place. -/
lemma regGet_map_update (r : Registry) (shop : String) (f : List Nat → List Nat) :
    regGet (r.map (fun e => if e.1 == shop then (e.1, f e.2) else e)) shop =
      (regGet r shop).map f := by
  induction r with
  | nil => simp [regGet]
  | cons a rest ih =>
      unfold regGet at *
      rcases ha : (a.1 == shop) with _ | _
      · simpa [List.find?, ha] using ih
      · simp [List.find?, ha]

/-- Looking up a tenant after all its entries were filtered out. -/
lemma regGet_filter_out (r : Registry) (shop : String) :
    regGet (r.filter (fun e => !(e.1 == shop))) shop = none := by
  induction r with
  | nil => simp [regGet]
  | cons a rest ih =>
      unfold regGet at *
      rcases ha : (a.1 == shop) with _ | _
      · simp only [List.filter, ha, Bool.not_false, List.find?, ha]
        exact ih
      · simp only [List.filter, ha, Bool.not_true]
        exact ih

/-- Looking up a tenant appended at the end of a registry that did not contain
it. -/
lemma regGet_append_new (r : Registry) (shop : String) (l : List Nat)
    (h : regGet r shop = none) : regGet (r ++ [(shop, l)]) shop = some l := by
  induction r with
  | nil => simp [regGet, List.find?]
  | cons a rest ih =>
      unfold regGet at *
      rcases ha : (a.1 == shop) with _ | _
      · simp only [List.cons_append, List.find?, ha] at h ⊢
        exact ih h
      · simp [List.find?, ha] at h

/-- The inserted connection is a member of the set. -/
lemma setInsert_mem (c : Nat) (l : List Nat) : c ∈ setInsert c l := by
  unfold setInsert
  split_ifs with h
  · exact h
  · simp

/-- The deleted connection is no longer a member of the set. -/
lemma setDelete_not_mem (c : Nat) (l : List Nat) : c ∉ setDelete c l := by
  unfold setDelete
  simp

/-- A set with an inserted connection is never empty. -/
lemma setInsert_ne_nil (c : Nat) (l : List Nat) : setInsert c l ≠ [] := by
  unfold setInsert
  split_ifs with h
  · intro hn
    rw [hn] at h
    exact absurd h (List.not_mem_nil c)
  · simp

/-- C9 counterexample: an error event on a registered connection leaves the
registry unchanged — the connection is not removed, contradicting the claim
that membership is removed on error (the error handler only logs). -/
theorem wsStep_error_event_cex :
    wsStep [("shop1", [0])] (WsEvent.errorEv "shop1" 0) = [("shop1", [0])] ∧
    0 ∈ (regGet (wsStep [("shop1", [0])] (WsEvent.errorEv "shop1" 0)) "shop1").getD [] := by
  refine ⟨rfl, by decide⟩

/-- C9 (amended): the registry adds a connection on successful attach, rejects
an attach without a tenant identifier, removes the connection on disconnect,
prunes an entry that becomes empty on disconnect (an entry present after a
close is never the empty set), leaves the registry unchanged on an error
event, and preserves the no-dangling-empty-set invariant under every event. -/
theorem wsStep_registry_invariants :
    ∀ (r : Registry) (shop : String) (c : Nat),
    (c ∈ (regGet (wsStep r (WsEvent.connect (some shop) c)) shop).getD []) ∧
    (wsStep r (WsEvent.connect none c) = r) ∧
    (c ∉ (regGet (wsStep r (WsEvent.close shop c)) shop).getD []) ∧
    (∀ l, regGet (wsStep r (WsEvent.close shop c)) shop = some l → l ≠ []) ∧
    (wsStep r (WsEvent.errorEv shop c) = r) ∧
    ((∀ e ∈ r, e.2 ≠ []) → ∀ ev : WsEvent, ∀ e ∈ wsStep r ev, e.2 ≠ []) := by
  intro r shop c
  refine ⟨?_, rfl, ?_, ?_, rfl, ?_⟩
  · rcases hg : regGet r shop with _ | l
    · simp only [wsStep, hg]
      rw [regGet_append_new r shop [c] hg]
      simp
    · simp only [wsStep, hg]
      rw [regGet_map_update r shop (setInsert c), hg]
      simpa using setInsert_mem c l
  · rcases hg : regGet r shop with _ | l
    · simp [wsStep, hg]
    · simp only [wsStep, hg]
      split_ifs with he
      · rw [regGet_filter_out]
        simp
      · rw [regGet_map_update r shop (fun _ => setDelete c l), hg]
        simpa using setDelete_not_mem c l
  · intro l0 hl0
    rcases hg : regGet r shop with _ | l
    · simp only [wsStep, hg] at hl0
      exact absurd hl0 (by simp)
    · simp only [wsStep, hg] at hl0
      split_ifs at hl0 with he
      · rw [regGet_filter_out] at hl0
        exact absurd hl0 (by simp)
      · rw [regGet_map_update r shop (fun _ => setDelete c l), hg] at hl0
        simp only [Option.map_some'] at hl0
        injection hl0 with h2
        intro hnil
        rw [h2, hnil] at he
        simp at he
  · intro hinv ev e he
    rcases ev with ⟨shop2, c2⟩ | ⟨shop2, c2⟩ | ⟨shop2, c2⟩
    · rcases shop2 with _ | s2
      · exact hinv e he
      · rcases hg : regGet r s2 with _ | l
        · simp only [wsStep, hg] at he
          rcases List.mem_append.mp he with hin | hin
          · exact hinv e hin
          · simp only [List.mem_singleton] at hin
            rw [hin]
            simp
        · simp only [wsStep, hg] at he
          obtain ⟨a, ha, hae⟩ := List.mem_map.mp he
          by_cases has : (a.1 == s2) = true
          · rw [if_pos has] at hae
            rw [← hae]
            exact setInsert_ne_nil c2 a.2
          · rw [if_neg has] at hae
            rw [← hae]
            exact hinv a ha
    · rcases hg : regGet r shop2 with _ | l
      · simp only [wsStep, hg] at he
        exact hinv e he
      · simp only [wsStep, hg] at he
        split_ifs at he with hemp
        · exact hinv e (List.mem_of_mem_filter he)
        · obtain ⟨a, ha, hae⟩ := List.mem_map.mp he
          by_cases has : (a.1 == shop2) = true
          · rw [if_pos has] at hae
            rw [← hae]
            intro hnil
            have h3 : setDelete c2 l = [] := hnil
            rw [h3] at hemp
            simp at hemp
          · rw [if_neg has] at hae
            rw [← hae]
            exact hinv a ha
    · exact hinv e he

/-- C9 witness for the amended statement: a one-tenant registry holding one
connection. -/
theorem wsStep_registry_invariants_witness :
    (0 ∈ (regGet (wsStep [("shop1", [1])] (WsEvent.connect (some "shop1") 0)) "shop1").getD []) ∧
    (wsStep [("shop1", [1])] (WsEvent.connect none 0) = [("shop1", [1])]) ∧
    (0 ∉ (regGet (wsStep [("shop1", [1])] (WsEvent.close "shop1" 0)) "shop1").getD []) ∧
    (∀ l, regGet (wsStep [("shop1", [1])] (WsEvent.close "shop1" 0)) "shop1" = some l → l ≠ []) ∧
    (wsStep [("shop1", [1])] (WsEvent.errorEv "shop1" 0) = [("shop1", [1])]) ∧
    ((∀ e ∈ [("shop1", [1])], e.2 ≠ []) → ∀ ev : WsEvent,
      ∀ e ∈ wsStep [("shop1", [1])] ev, e.2 ≠ []) :=
  wsStep_registry_invariants [("shop1", [1])] "shop1" 0
